import Mathlib

/-!
A shallow embedding of the redNES 6502 CPU core (`src/cpu.rs`) and memory bus
(`src/bus.rs`).  Machine bytes are represented as `Nat` with explicit `% 256`
at every point where the Rust code truncates to `u8`, and `% 65536` where
`u16` arithmetic wraps.  Rust operations that can panic (array indexing out of
bounds, `todo!`, `panic!`) are embedded as `Option`-returning functions where
the partiality is relevant to a property.
-/

set_option maxRecDepth 10000

/-- Status flag bit masks from the `StatusFlags` module. -/
def StatusFlags.CARRY : Nat := 0x01

/-- `ZERO` status bit. -/
def StatusFlags.ZERO : Nat := 0x02

/-- `INTERRUPT_DISABLE` status bit. -/
def StatusFlags.INTERRUPT_DISABLE : Nat := 0x04

/-- `DECIMAL_MODE` status bit. -/
def StatusFlags.DECIMAL_MODE : Nat := 0x08

/-- `BREAK` status bit. -/
def StatusFlags.BREAK : Nat := 0x10

/-- `BREAK2` status bit. -/
def StatusFlags.BREAK2 : Nat := 0x20

/-- `OVERFLOW` status bit. -/
def StatusFlags.OVERFLOW : Nat := 0x40

/-- `NEGATIVE` status bit. -/
def StatusFlags.NEGATIVE : Nat := 0x80

/-- `const STACK: u16 = 0x0100`. -/
def STACK : Nat := 0x0100

/-- `const STACK_RESET: u8 = 0xfd`. -/
def STACK_RESET : Nat := 0xfd

/-- The nine addressing modes of `enum AddressingMode`. -/
inductive AddressingMode where
  | Immediate
  | ZeroPage
  | ZeroPageX
  | ZeroPageY
  | Absolute
  | AbsoluteX
  | AbsoluteY
  | IndirectX
  | IndirectY
  | NonAddressing
deriving DecidableEq, Repr

/-- The CPU register file of `struct CPU`.  The backing store is modelled as a
total byte function; the concrete `[u8; 0xFFFF]` array of the standalone CPU
(whose finite length matters for the bounds property) is modelled separately
below as `CPU_new_memory`. -/
structure CPU where
  acc : Nat
  status : Nat
  index_x : Nat
  index_y : Nat
  sp : Nat
  pc : Nat
  memory : Nat → Nat

/-- `CPU::mem_read` (through the `Memory` trait): `self.memory[address]`. -/
def CPU.mem_read (c : CPU) (address : Nat) : Nat :=
  c.memory address

/-- `CPU::mem_write`: `self.memory[address] = value`. -/
def CPU.mem_write (c : CPU) (address value : Nat) : CPU :=
  { c with memory := fun a => if a = address then value else c.memory a }

/-- `Memory::mem_read_u16`: little-endian 16-bit read (`pos + 1` wraps as `u16`). -/
def CPU.mem_read_u16 (c : CPU) (pos : Nat) : Nat :=
  let lo := c.mem_read pos
  let hi := c.mem_read ((pos + 1) % 65536)
  (hi <<< 8) ||| lo

/-- `Memory::mem_write_u16`: little-endian 16-bit write. -/
def CPU.mem_write_u16 (c : CPU) (pos data : Nat) : CPU :=
  let hi := (data >>> 8) % 256
  let lo := data &&& 0xFF
  (c.mem_write pos lo).mem_write ((pos + 1) % 65536) hi

/-- `CPU::set_flag`: set or clear one status bit (`!flag` on `u8` is `flag ^ 0xFF`). -/
def CPU.set_flag (c : CPU) (flag : Nat) (value : Bool) : CPU :=
  if value then { c with status := c.status ||| flag }
  else { c with status := c.status &&& (flag ^^^ 0xFF) }

/-- `CPU::get_flag`: `(self.status & flag) > 0`. -/
def CPU.get_flag (c : CPU) (flag : Nat) : Bool :=
  decide (c.status &&& flag > 0)

/-- `CPU::update_zero_and_negative_flags`. -/
def CPU.update_zero_and_negative_flags (c : CPU) (value : Nat) : CPU :=
  (c.set_flag StatusFlags.ZERO (decide (value = 0))).set_flag
    StatusFlags.NEGATIVE (decide (value &&& 0b10000000 ≠ 0))

/-- `CPU::get_operand_address`.  `NonAddressing` panics in the source and is
unreachable from the dispatch; it is given the dummy value 0 here. -/
def CPU.get_operand_address (c : CPU) (mode : AddressingMode) : Nat :=
  match mode with
  | AddressingMode.Immediate => c.pc
  | AddressingMode.ZeroPage => c.mem_read c.pc
  | AddressingMode.Absolute => c.mem_read_u16 c.pc
  | AddressingMode.ZeroPageX => (c.mem_read c.pc + c.index_x) % 256
  | AddressingMode.ZeroPageY => (c.mem_read c.pc + c.index_y) % 256
  | AddressingMode.AbsoluteX => (c.mem_read_u16 c.pc + c.index_x) % 65536
  | AddressingMode.AbsoluteY => (c.mem_read_u16 c.pc + c.index_y) % 65536
  | AddressingMode.IndirectX =>
      let ptr := (c.mem_read c.pc + c.index_x) % 256
      let lo := c.mem_read ptr
      let hi := c.mem_read ((ptr + 1) % 256)
      (hi <<< 8) ||| lo
  | AddressingMode.IndirectY =>
      let base := c.mem_read c.pc
      let lo := c.mem_read base
      let hi := c.mem_read ((base % 256 + 1) % 256)
      let deref_base := (hi <<< 8) ||| lo
      (deref_base + c.index_y) % 65536
  | AddressingMode.NonAddressing => 0

/-- `CPU::lda`. -/
def CPU.lda (c : CPU) (mode : AddressingMode) : CPU :=
  let addr := c.get_operand_address mode
  let value := c.mem_read addr
  ({ c with acc := value }).update_zero_and_negative_flags value

/-- `CPU::ldx`. -/
def CPU.ldx (c : CPU) (mode : AddressingMode) : CPU :=
  let addr := c.get_operand_address mode
  let value := c.mem_read addr
  ({ c with index_x := value }).update_zero_and_negative_flags value

/-- `CPU::ldy`. -/
def CPU.ldy (c : CPU) (mode : AddressingMode) : CPU :=
  let addr := c.get_operand_address mode
  let value := c.mem_read addr
  ({ c with index_y := value }).update_zero_and_negative_flags value

/-- `CPU::sta`. -/
def CPU.sta (c : CPU) (mode : AddressingMode) : CPU :=
  c.mem_write (c.get_operand_address mode) c.acc

/-- `CPU::stx`. -/
def CPU.stx (c : CPU) (mode : AddressingMode) : CPU :=
  c.mem_write (c.get_operand_address mode) c.index_x

/-- `CPU::sty`. -/
def CPU.sty (c : CPU) (mode : AddressingMode) : CPU :=
  c.mem_write (c.get_operand_address mode) c.index_y

/-- `CPU::tax`. -/
def CPU.tax (c : CPU) : CPU :=
  ({ c with index_x := c.acc }).update_zero_and_negative_flags c.acc

/-- `CPU::tay`. -/
def CPU.tay (c : CPU) : CPU :=
  ({ c with index_y := c.acc }).update_zero_and_negative_flags c.acc

/-- `CPU::txa`. -/
def CPU.txa (c : CPU) : CPU :=
  ({ c with acc := c.index_x }).update_zero_and_negative_flags c.index_x

/-- `CPU::tya`. -/
def CPU.tya (c : CPU) : CPU :=
  ({ c with acc := c.index_y }).update_zero_and_negative_flags c.index_y

/-- `CPU::tsx`. -/
def CPU.tsx (c : CPU) : CPU :=
  ({ c with index_x := c.sp }).update_zero_and_negative_flags c.sp

/-- `CPU::txs`. -/
def CPU.txs (c : CPU) : CPU :=
  { c with sp := c.index_x }

/-- `CPU::inc` (8-bit wrapping add of 1 on a memory cell). -/
def CPU.inc (c : CPU) (mode : AddressingMode) : CPU :=
  let addr := c.get_operand_address mode
  let result := (c.mem_read addr + 1) % 256
  (c.mem_write addr result).update_zero_and_negative_flags result

/-- `CPU::inx`. -/
def CPU.inx (c : CPU) : CPU :=
  let result := (c.index_x + 1) % 256
  ({ c with index_x := result }).update_zero_and_negative_flags result

/-- `CPU::iny`. -/
def CPU.iny (c : CPU) : CPU :=
  let result := (c.index_y + 1) % 256
  ({ c with index_y := result }).update_zero_and_negative_flags result

/-- `CPU::dec` (8-bit wrapping subtract of 1 on a memory cell). -/
def CPU.dec (c : CPU) (mode : AddressingMode) : CPU :=
  let addr := c.get_operand_address mode
  let result := (c.mem_read addr % 256 + 255) % 256
  (c.mem_write addr result).update_zero_and_negative_flags result

/-- `CPU::dex`. -/
def CPU.dex (c : CPU) : CPU :=
  let result := (c.index_x % 256 + 255) % 256
  ({ c with index_x := result }).update_zero_and_negative_flags result

/-- `CPU::dey`. -/
def CPU.dey (c : CPU) : CPU :=
  let result := (c.index_y % 256 + 255) % 256
  ({ c with index_y := result }).update_zero_and_negative_flags result

/-- `CPU::adc`: addition with carry.  The overflow formula reads `self.acc`
before the accumulator is overwritten, exactly as in the source. -/
def CPU.adc (c : CPU) (mode : AddressingMode) : CPU :=
  let addr := c.get_operand_address mode
  let value := c.mem_read addr
  let carry_in := if c.get_flag StatusFlags.CARRY then 1 else 0
  let sum := c.acc + value + carry_in
  let c1 := c.set_flag StatusFlags.CARRY (decide (sum > 0xFF))
  let result := sum % 256
  let overflow := decide ((c.acc ^^^ result) &&& (value ^^^ result) &&& 0x80 ≠ 0)
  let c2 := c1.set_flag StatusFlags.OVERFLOW overflow
  ({ c2 with acc := result }).update_zero_and_negative_flags result

/-- `CPU::sbc`: subtract with carry, implemented in the source by cloning the
CPU into a scratch state, writing the one's complement of the operand at
address 0, pointing the scratch PC at it and invoking `adc` in immediate mode,
then copying only the accumulator and status back.
`(value as i8).wrapping_neg().wrapping_sub(1) as u8` is
`((256 - value % 256) % 256 + 255) % 256`. -/
def CPU.sbc (c : CPU) (mode : AddressingMode) : CPU :=
  let addr := c.get_operand_address mode
  let value := c.mem_read addr
  let inverted_value := ((256 - value % 256) % 256 + 255) % 256
  let temp_cpu := { c with acc := c.acc, status := c.status }
  let temp_cpu := temp_cpu.mem_write 0 inverted_value
  let temp_cpu := { temp_cpu with pc := 0 }
  let temp_cpu := temp_cpu.adc AddressingMode.Immediate
  { c with acc := temp_cpu.acc, status := temp_cpu.status }

/-- `CPU::and`. -/
def CPU.and (c : CPU) (mode : AddressingMode) : CPU :=
  let value := c.mem_read (c.get_operand_address mode)
  let result := c.acc &&& value
  ({ c with acc := result }).update_zero_and_negative_flags result

/-- `CPU::eor`. -/
def CPU.eor (c : CPU) (mode : AddressingMode) : CPU :=
  let value := c.mem_read (c.get_operand_address mode)
  let result := c.acc ^^^ value
  ({ c with acc := result }).update_zero_and_negative_flags result

/-- `CPU::ora`. -/
def CPU.ora (c : CPU) (mode : AddressingMode) : CPU :=
  let value := c.mem_read (c.get_operand_address mode)
  let result := c.acc ||| value
  ({ c with acc := result }).update_zero_and_negative_flags result

/-- `CPU::compare`, shared by CMP/CPX/CPY.  Note the carry condition is the
strict `reg_value > value` of the source. -/
def CPU.compare (c : CPU) (mode : AddressingMode) (reg_value : Nat) : CPU :=
  let value := c.mem_read (c.get_operand_address mode)
  let result := (reg_value + 256 - value % 256) % 256
  (c.set_flag StatusFlags.CARRY
    (decide (reg_value > value))).update_zero_and_negative_flags result

/-- `CPU::bit`. -/
def CPU.bit (c : CPU) (mode : AddressingMode) : CPU :=
  let value := c.mem_read (c.get_operand_address mode)
  ((c.set_flag StatusFlags.ZERO (decide (c.acc &&& value = 0))).set_flag
      StatusFlags.NEGATIVE (decide (value &&& StatusFlags.NEGATIVE ≠ 0))).set_flag
    StatusFlags.OVERFLOW (decide (value &&& StatusFlags.OVERFLOW ≠ 0))

/-- `CPU::stack_push` (`sp` wraps in 8 bits). -/
def CPU.stack_push (c : CPU) (value : Nat) : CPU :=
  let c1 := c.mem_write (STACK + c.sp) value
  { c1 with sp := (c1.sp % 256 + 255) % 256 }

/-- `CPU::stack_pop`, returning the popped byte together with the new state. -/
def CPU.stack_pop (c : CPU) : Nat × CPU :=
  let c1 := { c with sp := (c.sp + 1) % 256 }
  (c1.mem_read (STACK + c1.sp), c1)

/-- `CPU::stack_push_u16`. -/
def CPU.stack_push_u16 (c : CPU) (value : Nat) : CPU :=
  let hi := (value >>> 8) % 256
  let lo := value &&& 0xFF
  (c.stack_push hi).stack_push lo

/-- `CPU::stack_pop_u16`. -/
def CPU.stack_pop_u16 (c : CPU) : Nat × CPU :=
  let (lo, c1) := c.stack_pop
  let (hi, c2) := c1.stack_pop
  ((hi <<< 8) ||| lo, c2)

/-- `CPU::pha`. -/
def CPU.pha (c : CPU) : CPU :=
  c.stack_push c.acc

/-- `CPU::pla`. -/
def CPU.pla (c : CPU) : CPU :=
  let (value, c1) := c.stack_pop
  ({ c1 with acc := value }).update_zero_and_negative_flags value

/-- `CPU::php` (pushes status with both break bits forced on). -/
def CPU.php (c : CPU) : CPU :=
  c.stack_push ((c.status ||| StatusFlags.BREAK) ||| StatusFlags.BREAK2)

/-- `CPU::plp`. -/
def CPU.plp (c : CPU) : CPU :=
  let (value, c1) := c.stack_pop
  (({ c1 with status := value }).set_flag StatusFlags.BREAK false).set_flag
    StatusFlags.BREAK2 true

/-- Sign extension of an 8-bit offset byte to a 16-bit quantity, the effect of
`offset as i8 as u16` in `CPU::branch`. -/
def sign_extend (offset : Nat) : Nat :=
  if offset ≥ 128 then offset + 0xFF00 else offset

/-- `CPU::branch`: when the condition holds, add the sign-extended relative
offset (read at the current PC) plus one to the PC, wrapping in 16 bits. -/
def CPU.branch (c : CPU) (condition : Bool) : CPU :=
  if condition then
    let jump := c.mem_read c.pc
    let jump_addr := (c.pc + 1 + sign_extend jump) % 65536
    { c with pc := jump_addr }
  else c

/-- An entry of the opcode table (`struct Instruction` in `opcodes.rs`). -/
structure Instruction where
  code : Nat
  mnemonic : String
  len : Nat
  mode : AddressingMode
  cycles : Nat
deriving DecidableEq, Repr

set_option maxHeartbeats 2000000 in
/-- The static `CPU_INSTRUCTIONS` vector from `opcodes.rs`, in source order. -/
def CPU_INSTRUCTIONS : List Instruction := [
  Instruction.mk 0x00 "BRK" 1 AddressingMode.NonAddressing 7,
  Instruction.mk 0xEA "NOP" 1 AddressingMode.NonAddressing 2,
  Instruction.mk 0x40 "RTI" 1 AddressingMode.NonAddressing 6,
  Instruction.mk 0x4C "JMP" 3 AddressingMode.Absolute 3,
  Instruction.mk 0x6C "JMP" 3 AddressingMode.NonAddressing 5,
  Instruction.mk 0x20 "JSR" 3 AddressingMode.Absolute 6,
  Instruction.mk 0x60 "RTS" 1 AddressingMode.NonAddressing 6,
  Instruction.mk 0xA9 "LDA" 2 AddressingMode.Immediate 2,
  Instruction.mk 0xA5 "LDA" 2 AddressingMode.ZeroPage 3,
  Instruction.mk 0xB5 "LDA" 2 AddressingMode.ZeroPageX 4,
  Instruction.mk 0xAD "LDA" 3 AddressingMode.Absolute 4,
  Instruction.mk 0xBD "LDA" 3 AddressingMode.AbsoluteX 4,
  Instruction.mk 0xB9 "LDA" 3 AddressingMode.AbsoluteY 4,
  Instruction.mk 0xA1 "LDA" 2 AddressingMode.IndirectX 6,
  Instruction.mk 0xB1 "LDA" 2 AddressingMode.IndirectY 5,
  Instruction.mk 0xA2 "LDX" 2 AddressingMode.Immediate 2,
  Instruction.mk 0xA6 "LDX" 2 AddressingMode.ZeroPage 3,
  Instruction.mk 0xB6 "LDX" 2 AddressingMode.ZeroPageY 4,
  Instruction.mk 0xAE "LDX" 3 AddressingMode.Absolute 4,
  Instruction.mk 0xBE "LDX" 3 AddressingMode.AbsoluteY 4,
  Instruction.mk 0xA0 "LDY" 2 AddressingMode.Immediate 2,
  Instruction.mk 0xA4 "LDY" 2 AddressingMode.ZeroPage 3,
  Instruction.mk 0xB4 "LDY" 2 AddressingMode.ZeroPageX 4,
  Instruction.mk 0xAC "LDY" 3 AddressingMode.Absolute 4,
  Instruction.mk 0xBC "LDY" 3 AddressingMode.AbsoluteX 4,
  Instruction.mk 0x85 "STA" 2 AddressingMode.ZeroPage 3,
  Instruction.mk 0x95 "STA" 2 AddressingMode.ZeroPageX 4,
  Instruction.mk 0x8D "STA" 3 AddressingMode.Absolute 4,
  Instruction.mk 0x9D "STA" 3 AddressingMode.AbsoluteX 5,
  Instruction.mk 0x99 "STA" 3 AddressingMode.AbsoluteY 5,
  Instruction.mk 0x81 "STA" 2 AddressingMode.IndirectX 6,
  Instruction.mk 0x91 "STA" 2 AddressingMode.IndirectY 6,
  Instruction.mk 0x86 "STX" 2 AddressingMode.ZeroPage 3,
  Instruction.mk 0x96 "STX" 2 AddressingMode.ZeroPageY 4,
  Instruction.mk 0x8E "STX" 3 AddressingMode.Absolute 4,
  Instruction.mk 0x84 "STY" 2 AddressingMode.ZeroPage 3,
  Instruction.mk 0x94 "STY" 2 AddressingMode.ZeroPageX 4,
  Instruction.mk 0x8C "STY" 3 AddressingMode.Absolute 4,
  Instruction.mk 0xAA "TAX" 1 AddressingMode.NonAddressing 2,
  Instruction.mk 0xA8 "TAY" 1 AddressingMode.NonAddressing 2,
  Instruction.mk 0xBA "TSX" 1 AddressingMode.NonAddressing 2,
  Instruction.mk 0x8A "TXA" 1 AddressingMode.NonAddressing 2,
  Instruction.mk 0x9A "TXS" 1 AddressingMode.NonAddressing 2,
  Instruction.mk 0x98 "TYA" 1 AddressingMode.NonAddressing 2,
  Instruction.mk 0x48 "PHA" 1 AddressingMode.NonAddressing 3,
  Instruction.mk 0x08 "PHP" 1 AddressingMode.NonAddressing 3,
  Instruction.mk 0x68 "PLA" 1 AddressingMode.NonAddressing 4,
  Instruction.mk 0x28 "PLP" 1 AddressingMode.NonAddressing 4,
  Instruction.mk 0x29 "AND" 2 AddressingMode.Immediate 2,
  Instruction.mk 0x25 "AND" 2 AddressingMode.ZeroPage 3,
  Instruction.mk 0x35 "AND" 2 AddressingMode.ZeroPageX 4,
  Instruction.mk 0x2D "AND" 3 AddressingMode.Absolute 4,
  Instruction.mk 0x3D "AND" 3 AddressingMode.AbsoluteX 4,
  Instruction.mk 0x39 "AND" 3 AddressingMode.AbsoluteY 4,
  Instruction.mk 0x21 "AND" 2 AddressingMode.IndirectX 6,
  Instruction.mk 0x31 "AND" 2 AddressingMode.IndirectY 5,
  Instruction.mk 0x49 "EOR" 2 AddressingMode.Immediate 2,
  Instruction.mk 0x45 "EOR" 2 AddressingMode.ZeroPage 3,
  Instruction.mk 0x55 "EOR" 2 AddressingMode.ZeroPageX 4,
  Instruction.mk 0x4D "EOR" 3 AddressingMode.Absolute 4,
  Instruction.mk 0x5D "EOR" 3 AddressingMode.AbsoluteX 4,
  Instruction.mk 0x59 "EOR" 3 AddressingMode.AbsoluteY 4,
  Instruction.mk 0x41 "EOR" 2 AddressingMode.IndirectX 6,
  Instruction.mk 0x51 "EOR" 2 AddressingMode.IndirectY 5,
  Instruction.mk 0x09 "ORA" 2 AddressingMode.Immediate 2,
  Instruction.mk 0x05 "ORA" 2 AddressingMode.ZeroPage 3,
  Instruction.mk 0x15 "ORA" 2 AddressingMode.ZeroPageX 4,
  Instruction.mk 0x0D "ORA" 3 AddressingMode.Absolute 4,
  Instruction.mk 0x1D "ORA" 3 AddressingMode.AbsoluteX 4,
  Instruction.mk 0x19 "ORA" 3 AddressingMode.AbsoluteY 4,
  Instruction.mk 0x01 "ORA" 2 AddressingMode.IndirectX 6,
  Instruction.mk 0x11 "ORA" 2 AddressingMode.IndirectY 5,
  Instruction.mk 0x24 "BIT" 2 AddressingMode.ZeroPage 3,
  Instruction.mk 0x2C "BIT" 3 AddressingMode.Absolute 4,
  Instruction.mk 0x69 "ADC" 2 AddressingMode.Immediate 2,
  Instruction.mk 0x65 "ADC" 2 AddressingMode.ZeroPage 3,
  Instruction.mk 0x75 "ADC" 2 AddressingMode.ZeroPageX 4,
  Instruction.mk 0x6D "ADC" 3 AddressingMode.Absolute 4,
  Instruction.mk 0x7D "ADC" 3 AddressingMode.AbsoluteX 4,
  Instruction.mk 0x79 "ADC" 3 AddressingMode.AbsoluteY 4,
  Instruction.mk 0x61 "ADC" 2 AddressingMode.IndirectX 6,
  Instruction.mk 0x71 "ADC" 2 AddressingMode.IndirectY 5,
  Instruction.mk 0xE9 "SBC" 2 AddressingMode.Immediate 2,
  Instruction.mk 0xE5 "SBC" 2 AddressingMode.ZeroPage 3,
  Instruction.mk 0xF5 "SBC" 2 AddressingMode.ZeroPageX 4,
  Instruction.mk 0xED "SBC" 3 AddressingMode.Absolute 4,
  Instruction.mk 0xFD "SBC" 3 AddressingMode.AbsoluteX 4,
  Instruction.mk 0xF9 "SBC" 3 AddressingMode.AbsoluteY 4,
  Instruction.mk 0xE1 "SBC" 2 AddressingMode.IndirectX 6,
  Instruction.mk 0xF1 "SBC" 2 AddressingMode.IndirectY 5,
  Instruction.mk 0xC9 "CMP" 2 AddressingMode.Immediate 2,
  Instruction.mk 0xC5 "CMP" 2 AddressingMode.ZeroPage 3,
  Instruction.mk 0xD5 "CMP" 2 AddressingMode.ZeroPageX 4,
  Instruction.mk 0xCD "CMP" 3 AddressingMode.Absolute 4,
  Instruction.mk 0xDD "CMP" 3 AddressingMode.AbsoluteX 4,
  Instruction.mk 0xD9 "CMP" 3 AddressingMode.AbsoluteY 4,
  Instruction.mk 0xC1 "CMP" 2 AddressingMode.IndirectX 6,
  Instruction.mk 0xD1 "CMP" 2 AddressingMode.IndirectY 5,
  Instruction.mk 0xE0 "CPX" 2 AddressingMode.Immediate 2,
  Instruction.mk 0xE4 "CPX" 2 AddressingMode.ZeroPage 3,
  Instruction.mk 0xEC "CPX" 3 AddressingMode.Absolute 4,
  Instruction.mk 0xC0 "CPY" 2 AddressingMode.Immediate 2,
  Instruction.mk 0xC4 "CPY" 2 AddressingMode.ZeroPage 3,
  Instruction.mk 0xCC "CPY" 3 AddressingMode.Absolute 4,
  Instruction.mk 0xE6 "INC" 2 AddressingMode.ZeroPage 5,
  Instruction.mk 0xF6 "INC" 2 AddressingMode.ZeroPageX 6,
  Instruction.mk 0xEE "INC" 3 AddressingMode.Absolute 6,
  Instruction.mk 0xFE "INC" 3 AddressingMode.AbsoluteX 7,
  Instruction.mk 0xE8 "INX" 1 AddressingMode.NonAddressing 2,
  Instruction.mk 0xC8 "INY" 1 AddressingMode.NonAddressing 2,
  Instruction.mk 0xC6 "DEC" 2 AddressingMode.ZeroPage 5,
  Instruction.mk 0xD6 "DEC" 2 AddressingMode.ZeroPageX 6,
  Instruction.mk 0xCE "DEC" 3 AddressingMode.Absolute 6,
  Instruction.mk 0xDE "DEC" 3 AddressingMode.AbsoluteX 7,
  Instruction.mk 0xCA "DEX" 1 AddressingMode.NonAddressing 2,
  Instruction.mk 0x88 "DEY" 1 AddressingMode.NonAddressing 2,
  Instruction.mk 0x0A "ASL" 1 AddressingMode.NonAddressing 2,
  Instruction.mk 0x06 "ASL" 2 AddressingMode.ZeroPage 5,
  Instruction.mk 0x16 "ASL" 2 AddressingMode.ZeroPageX 6,
  Instruction.mk 0x0E "ASL" 3 AddressingMode.Absolute 6,
  Instruction.mk 0x1E "ASL" 3 AddressingMode.AbsoluteX 7,
  Instruction.mk 0x4A "LSR" 1 AddressingMode.NonAddressing 2,
  Instruction.mk 0x46 "LSR" 2 AddressingMode.ZeroPage 5,
  Instruction.mk 0x56 "LSR" 2 AddressingMode.ZeroPageX 6,
  Instruction.mk 0x4E "LSR" 3 AddressingMode.Absolute 6,
  Instruction.mk 0x5E "LSR" 3 AddressingMode.AbsoluteX 7,
  Instruction.mk 0x2A "ROL" 1 AddressingMode.NonAddressing 2,
  Instruction.mk 0x26 "ROL" 2 AddressingMode.ZeroPage 5,
  Instruction.mk 0x36 "ROL" 2 AddressingMode.ZeroPageX 6,
  Instruction.mk 0x2E "ROL" 3 AddressingMode.Absolute 6,
  Instruction.mk 0x3E "ROL" 3 AddressingMode.AbsoluteX 7,
  Instruction.mk 0x6A "ROR" 1 AddressingMode.NonAddressing 2,
  Instruction.mk 0x66 "ROR" 2 AddressingMode.ZeroPage 5,
  Instruction.mk 0x76 "ROR" 2 AddressingMode.ZeroPageX 6,
  Instruction.mk 0x6E "ROR" 3 AddressingMode.Absolute 6,
  Instruction.mk 0x7E "ROR" 3 AddressingMode.AbsoluteX 7,
  Instruction.mk 0x90 "BCC" 2 AddressingMode.NonAddressing 2,
  Instruction.mk 0xB0 "BCS" 2 AddressingMode.NonAddressing 2,
  Instruction.mk 0xF0 "BEQ" 2 AddressingMode.NonAddressing 2,
  Instruction.mk 0xD0 "BNE" 2 AddressingMode.NonAddressing 2,
  Instruction.mk 0x30 "BMI" 2 AddressingMode.NonAddressing 2,
  Instruction.mk 0x10 "BPL" 2 AddressingMode.NonAddressing 2,
  Instruction.mk 0x50 "BVC" 2 AddressingMode.NonAddressing 2,
  Instruction.mk 0x70 "BVS" 2 AddressingMode.NonAddressing 2,
  Instruction.mk 0x18 "CLC" 1 AddressingMode.NonAddressing 2,
  Instruction.mk 0x38 "SEC" 1 AddressingMode.NonAddressing 2,
  Instruction.mk 0x58 "CLI" 1 AddressingMode.NonAddressing 2,
  Instruction.mk 0x78 "SEI" 1 AddressingMode.NonAddressing 2,
  Instruction.mk 0xD8 "CLD" 1 AddressingMode.NonAddressing 2,
  Instruction.mk 0xF8 "SED" 1 AddressingMode.NonAddressing 2,
  Instruction.mk 0xB8 "CLV" 1 AddressingMode.NonAddressing 2]

/-- The opcode lookup map (`CPU_INSTRUCTIONS_MAP`): opcodes are unique in the
table, so lookup by first match agrees with the source's hash map. -/
def CPU_INSTRUCTIONS_MAP (code : Nat) : Option Instruction :=
  CPU_INSTRUCTIONS.find? (fun i => i.code == code)

/-- Result of one iteration of the `run_with_callback` loop: the BRK arm
returns from the loop, an unknown or unimplemented opcode panics
(`expect` / `todo!`), and every other instruction produces a next state. -/
inductive StepResult where
  | halted : CPU → StepResult
  | fault : StepResult
  | next : CPU → StepResult
deriving Inhabited

/-- The body of the `JMP Indirect` (0x6C) arm of the dispatch: fetch the
16-bit operand at PC; when its low byte is 0xFF reproduce the 6502 hardware
bug by reading the target's high byte from the start of the operand's page
(`operand & 0xFF00`) instead of `operand + 1`; otherwise a normal
little-endian fetch. -/
def CPU.jmp_indirect_target (c : CPU) : Nat :=
  let operand_addr := c.mem_read_u16 c.pc
  if operand_addr &&& 0x00FF = 0x00FF then
    let lo := c.mem_read operand_addr
    let hi := c.mem_read (operand_addr &&& 0xFF00)
    (hi <<< 8) ||| lo
  else
    c.mem_read_u16 operand_addr

/-- The opcode dispatch `match` inside `CPU::run_with_callback`, applied to the
state whose PC has already been advanced past the opcode byte. -/
def CPU.dispatch (c : CPU) (opcode : Nat) (mode : AddressingMode) : StepResult :=
  match opcode with
  | 0xA9 | 0xA5 | 0xB5 | 0xAD | 0xBD | 0xB9 | 0xA1 | 0xB1 => StepResult.next (c.lda mode)
  | 0xA2 | 0xA6 | 0xB6 | 0xAE | 0xBE => StepResult.next (c.ldx mode)
  | 0xA0 | 0xA4 | 0xB4 | 0xAC | 0xBC => StepResult.next (c.ldy mode)
  | 0x85 | 0x8D | 0x95 | 0x9D | 0x99 | 0x81 | 0x91 => StepResult.next (c.sta mode)
  | 0x86 | 0x96 | 0x8E => StepResult.next (c.stx mode)
  | 0x84 | 0x94 | 0x8C => StepResult.next (c.sty mode)
  | 0x69 | 0x65 | 0x75 | 0x6D | 0x7D | 0x79 | 0x61 | 0x71 => StepResult.next (c.adc mode)
  | 0xE9 | 0xE5 | 0xF5 | 0xED | 0xFD | 0xF9 | 0xE1 | 0xF1 => StepResult.next (c.sbc mode)
  | 0xC9 | 0xC5 | 0xD5 | 0xCD | 0xDD | 0xD9 | 0xC1 | 0xD1 =>
      StepResult.next (c.compare mode c.acc)
  | 0xE0 | 0xE4 | 0xEC => StepResult.next (c.compare mode c.index_x)
  | 0xC0 | 0xC4 | 0xCC => StepResult.next (c.compare mode c.index_y)
  | 0x29 | 0x25 | 0x35 | 0x2D | 0x3D | 0x39 | 0x21 | 0x31 => StepResult.next (c.and mode)
  | 0x49 | 0x45 | 0x55 | 0x4D | 0x5D | 0x59 | 0x41 | 0x51 => StepResult.next (c.eor mode)
  | 0x09 | 0x05 | 0x15 | 0x0D | 0x1D | 0x19 | 0x01 | 0x11 => StepResult.next (c.ora mode)
  | 0x24 | 0x2C => StepResult.next (c.bit mode)
  | 0xE6 | 0xEE | 0xF6 | 0xFE => StepResult.next (c.inc mode)
  | 0xC6 | 0xCE | 0xD6 | 0xDE => StepResult.next (c.dec mode)
  | 0xE8 => StepResult.next c.inx
  | 0xC8 => StepResult.next c.iny
  | 0xCA => StepResult.next c.dex
  | 0x88 => StepResult.next c.dey
  | 0x48 => StepResult.next c.pha
  | 0x68 => StepResult.next c.pla
  | 0x08 => StepResult.next c.php
  | 0x28 => StepResult.next c.plp
  | 0xAA => StepResult.next c.tax
  | 0xA8 => StepResult.next c.tay
  | 0x8A => StepResult.next c.txa
  | 0x98 => StepResult.next c.tya
  | 0xBA => StepResult.next c.tsx
  | 0x9A => StepResult.next c.txs
  | 0x90 => StepResult.next (c.branch (!(c.get_flag StatusFlags.CARRY)))
  | 0xB0 => StepResult.next (c.branch (c.get_flag StatusFlags.CARRY))
  | 0xF0 => StepResult.next (c.branch (c.get_flag StatusFlags.ZERO))
  | 0xD0 => StepResult.next (c.branch (!(c.get_flag StatusFlags.ZERO)))
  | 0x30 => StepResult.next (c.branch (c.get_flag StatusFlags.NEGATIVE))
  | 0x10 => StepResult.next (c.branch (!(c.get_flag StatusFlags.NEGATIVE)))
  | 0x50 => StepResult.next (c.branch (!(c.get_flag StatusFlags.OVERFLOW)))
  | 0x70 => StepResult.next (c.branch (c.get_flag StatusFlags.OVERFLOW))
  | 0x18 => StepResult.next (c.set_flag StatusFlags.CARRY false)
  | 0x38 => StepResult.next (c.set_flag StatusFlags.CARRY true)
  | 0x58 => StepResult.next (c.set_flag StatusFlags.INTERRUPT_DISABLE false)
  | 0x78 => StepResult.next (c.set_flag StatusFlags.INTERRUPT_DISABLE true)
  | 0xD8 => StepResult.next (c.set_flag StatusFlags.DECIMAL_MODE false)
  | 0xF8 => StepResult.next (c.set_flag StatusFlags.DECIMAL_MODE true)
  | 0xB8 => StepResult.next (c.set_flag StatusFlags.OVERFLOW false)
  | 0x4C => StepResult.next { c with pc := c.mem_read_u16 c.pc }
  | 0x6C => StepResult.next { c with pc := c.jmp_indirect_target }
  | 0x20 =>
      let c1 := c.stack_push_u16 ((c.pc + 1) % 65536)
      StepResult.next { c1 with pc := c1.mem_read_u16 c1.pc }
  | 0x60 =>
      let (value, c1) := c.stack_pop_u16
      StepResult.next { c1 with pc := (value + 1) % 65536 }
  | 0x0A =>
      let value := c.acc
      let c1 := c.set_flag StatusFlags.CARRY (decide (value &&& 0x80 > 0))
      let value := (value <<< 1) % 256
      StepResult.next (({ c1 with acc := value }).update_zero_and_negative_flags value)
  | 0x06 | 0x16 | 0x0E | 0x1E =>
      let addr := c.get_operand_address mode
      let value := c.mem_read addr
      let c1 := c.set_flag StatusFlags.CARRY (decide (value &&& 0x80 > 0))
      let value := (value <<< 1) % 256
      StepResult.next ((c1.mem_write addr value).update_zero_and_negative_flags value)
  | 0x4A =>
      let value := c.acc
      let c1 := c.set_flag StatusFlags.CARRY (decide (value &&& 0x01 > 0))
      let value := value >>> 1
      StepResult.next (({ c1 with acc := value }).update_zero_and_negative_flags value)
  | 0x46 | 0x56 | 0x4E | 0x5E =>
      let addr := c.get_operand_address mode
      let value := c.mem_read addr
      let c1 := c.set_flag StatusFlags.CARRY (decide (value &&& 0x01 > 0))
      let value := value >>> 1
      StepResult.next ((c1.mem_write addr value).update_zero_and_negative_flags value)
  | 0x40 =>
      let (value, c1) := c.stack_pop
      let c2 := (({ c1 with status := value }).set_flag StatusFlags.BREAK false).set_flag
        StatusFlags.BREAK2 true
      let (ret, c3) := c2.stack_pop_u16
      StepResult.next { c3 with pc := ret }
  | 0x2A =>
      let value := c.acc
      let old_carry := c.get_flag StatusFlags.CARRY
      let c1 := c.set_flag StatusFlags.CARRY (decide (value &&& 0x80 > 0))
      let value := (value <<< 1) % 256
      let value := if old_carry then value ||| 0x01 else value
      StepResult.next (({ c1 with acc := value }).update_zero_and_negative_flags value)
  | 0x26 | 0x36 | 0x2E | 0x3E =>
      let addr := c.get_operand_address mode
      let value := c.mem_read addr
      let old_carry := c.get_flag StatusFlags.CARRY
      let c1 := c.set_flag StatusFlags.CARRY (decide (value &&& 0x80 > 0))
      let value := (value <<< 1) % 256
      let value := if old_carry then value ||| 0x01 else value
      StepResult.next ((c1.mem_write addr value).update_zero_and_negative_flags value)
  | 0x6A =>
      let value := c.acc
      let old_carry := c.get_flag StatusFlags.CARRY
      let c1 := c.set_flag StatusFlags.CARRY (decide (value &&& 0x01 > 0))
      let value := value >>> 1
      let value := if old_carry then value ||| 0x80 else value
      StepResult.next (({ c1 with acc := value }).update_zero_and_negative_flags value)
  | 0x66 | 0x76 | 0x6E | 0x7E =>
      let addr := c.get_operand_address mode
      let value := c.mem_read addr
      let old_carry := c.get_flag StatusFlags.CARRY
      let c1 := c.set_flag StatusFlags.CARRY (decide (value &&& 0x01 > 0))
      let value := value >>> 1
      let value := if old_carry then value ||| 0x80 else value
      StepResult.next ((c1.mem_write addr value).update_zero_and_negative_flags value)
  | 0xEA => StepResult.next c
  | 0x00 => StepResult.halted c
  | _ => StepResult.fault

/-- One iteration of the `run_with_callback` loop, up to (but not including)
the trace callback: opcode fetch, PC increment, table lookup (an absent entry
is the `expect`-panic), dispatch, and the post-execute PC-length adjustment
applied only when the handler left the PC untouched. -/
def CPU.step (c0 : CPU) : StepResult :=
  let opcode := c0.mem_read c0.pc
  let c := { c0 with pc := (c0.pc + 1) % 65536 }
  let pc_state := c.pc
  match CPU_INSTRUCTIONS_MAP opcode with
  | none => StepResult.fault
  | some instruction =>
    match c.dispatch opcode instruction.mode with
    | StepResult.halted c1 => StepResult.halted c1
    | StepResult.fault => StepResult.fault
    | StepResult.next c1 =>
        if pc_state = c1.pc then
          StepResult.next { c1 with pc := (c1.pc + (instruction.len - 1)) % 65536 }
        else StepResult.next c1

/-- How a bounded run ended: the BRK arm returned, a step panicked, or the
fuel ran out (the source loop is unbounded). -/
inductive RunOutcome where
  | halted
  | faulted
  | outOfFuel
deriving DecidableEq, Repr

/-- `CPU::run_with_callback`, bounded by fuel.  The callback receives a
mutable reference in the source, so it is modelled as a state transformer; the
returned list records the CPU state at each callback invocation, in order. -/
def CPU.run_with_callback (c : CPU) (fuel : Nat) (cb : CPU → CPU) :
    CPU × List CPU × RunOutcome :=
  match fuel with
  | 0 => (c, [], RunOutcome.outOfFuel)
  | fuel + 1 =>
    match c.step with
    | StepResult.halted c1 => (c1, [], RunOutcome.halted)
    | StepResult.fault => (c, [], RunOutcome.faulted)
    | StepResult.next c1 =>
        let c2 := cb c1
        let rest := c2.run_with_callback fuel cb
        (rest.1, c2 :: rest.2.1, rest.2.2)

/-- Modelled from the spec: the number of instructions a bounded run completes
("called exactly once after each completed instruction; called zero times for
a faulted step").  A BRK or a faulted step completes no instruction; any other
step completes one and execution continues from the callback-patched state. -/
def CPU.completed_instructions (c : CPU) (fuel : Nat) (cb : CPU → CPU) : Nat :=
  match fuel with
  | 0 => 0
  | fuel + 1 =>
    match c.step with
    | StepResult.halted _ => 0
    | StepResult.fault => 0
    | StepResult.next c1 => 1 + (cb c1).completed_instructions fuel cb

/-- The PC of a successful step, for stating branch/jump properties. -/
def StepResult.pc_of : StepResult → Option Nat
  | StepResult.next c => some c.pc
  | _ => none

/-- The eight relative-branch opcodes. -/
def branch_opcodes : List Nat := [0x90, 0xB0, 0xF0, 0xD0, 0x30, 0x10, 0x50, 0x70]

/-- Modelled from the spec: the named condition each branch opcode tests
(BCC: C clear, BCS: C set, BEQ: Z set, BNE: Z clear, BMI: N set, BPL: N clear,
BVC: V clear, BVS: V set). -/
def branch_condition (c : CPU) (opcode : Nat) : Bool :=
  match opcode with
  | 0x90 => !(c.get_flag StatusFlags.CARRY)
  | 0xB0 => c.get_flag StatusFlags.CARRY
  | 0xF0 => c.get_flag StatusFlags.ZERO
  | 0xD0 => !(c.get_flag StatusFlags.ZERO)
  | 0x30 => c.get_flag StatusFlags.NEGATIVE
  | 0x10 => !(c.get_flag StatusFlags.NEGATIVE)
  | 0x50 => !(c.get_flag StatusFlags.OVERFLOW)
  | 0x70 => c.get_flag StatusFlags.OVERFLOW
  | _ => false

/-- The length of the backing array of the standalone CPU:
`memory: [u8; 0xFFFF]` in `struct CPU` — 0xFFFF (65535) bytes, one byte
short of the 65536 addresses of the 16-bit address space. -/
def CPU_MEMORY_LEN : Nat := 0xFFFF

/-- The zero-initialised backing array built by `CPU::new` (`[0; 0xFFFF]`). -/
def CPU_new_memory : List Nat := List.replicate CPU_MEMORY_LEN 0

/-- `CPU::mem_read` against the concrete backing array:
`self.memory[address as usize]` panics (returns `none`) when the index is not
below the array length. -/
def CPU_array_mem_read (memory : List Nat) (address : Nat) : Option Nat :=
  memory[address]?

/-- `CPU::mem_write` against the concrete backing array: the store panics
(returns `none`) when the index is not below the array length. -/
def CPU_array_mem_write (memory : List Nat) (address value : Nat) :
    Option (List Nat) :=
  if address < memory.length then some (memory.set address value) else none

/-- The cartridge record as the Bus uses it (`rom.prg_rom` is the PRG-ROM
byte vector; the other fields of `Rom` are not read by the Bus). -/
structure Rom where
  prg_rom : List Nat

/-- `struct Bus`: 2 KiB of internal RAM plus the cartridge.  The RAM array is
modelled as a byte function; every access below goes through `& 0x07FF`,
which is within the 2048-byte array. -/
structure Bus where
  cpu_vram : Nat → Nat
  rom : Rom

/-- `Bus::read_rpg_rom`: subtract the window base, mirror a 16 KiB bank, and
index PRG-ROM (out-of-bounds indexing panics, hence `Option`). -/
def Bus.read_rpg_rom (b : Bus) (addr : Nat) : Option Nat :=
  let addr := addr - 0x8000
  let addr :=
    if b.rom.prg_rom.length = 0x4000 ∧ addr ≥ 0x4000 then addr % 0x4000 else addr
  b.rom.prg_rom[addr]?

/-- `Bus::mem_read`: RAM with `addr & 0x07FF` mirroring, the unimplemented
PPU window (`todo!`, hence `none`), PRG-ROM, and 0 for everything else. -/
def Bus.mem_read (b : Bus) (address : Nat) : Option Nat :=
  if address ≤ 0x1FFF then
    some (b.cpu_vram (address &&& 0b0000011111111111))
  else if address ≤ 0x3FFF then
    none
  else if 0x8000 ≤ address ∧ address ≤ 0xFFFF then
    b.read_rpg_rom address
  else
    some 0

/-- `Bus::mem_write`: RAM with `addr & 0x7FF` mirroring, the unimplemented
PPU window (`todo!`), a panic for any store into 0x8000–0xFFFF
(`"Attempting to write to ROM"`), and an ignored store elsewhere. -/
def Bus.mem_write (b : Bus) (address value : Nat) : Option Bus :=
  if address ≤ 0x1FFF then
    some { b with cpu_vram :=
      fun a => if a = (address &&& 0b11111111111) then value else b.cpu_vram a }
  else if address ≤ 0x3FFF then
    none
  else if 0x8000 ≤ address ∧ address ≤ 0xFFFF then
    none
  else
    some b

/-- Reading a single-bit flag is testing the corresponding status bit. -/
theorem CPU.get_flag_pow (c : CPU) (i : Nat) :
    c.get_flag (2 ^ i) = c.status.testBit i := by
  unfold CPU.get_flag
  rw [Nat.and_two_pow]
  cases h : c.status.testBit i <;> simp [h, Nat.pos_pow_of_pos]

/-- `set_flag` with a single-bit mask edits exactly that status bit. -/
theorem CPU.set_flag_testBit (c : CPU) (i j : Nat) (hj : j < 8) (v : Bool) :
    ((c.set_flag (2 ^ i) v).status).testBit j =
      if i = j then v else c.status.testBit j := by
  unfold CPU.set_flag
  cases v with
  | true =>
      simp only [if_true]
      rw [Nat.testBit_or, @Nat.testBit_two_pow i j]
      by_cases h : i = j <;> simp [h]
  | false =>
      simp only [Bool.false_eq_true, if_false]
      have h255 : (0xFF : Nat) = 2 ^ 8 - 1 := rfl
      rw [Nat.testBit_and, Nat.testBit_xor, h255, Nat.testBit_two_pow_sub_one,
        @Nat.testBit_two_pow i j]
      by_cases h : i = j <;> simp [h, hj]

/-- Reading one flag after setting another (both single-bit, below bit 8). -/
theorem CPU.get_flag_set_flag (c : CPU) (i j : Nat) (hj : j < 8) (v : Bool) :
    (c.set_flag (2 ^ i) v).get_flag (2 ^ j) =
      if i = j then v else c.get_flag (2 ^ j) := by
  rw [CPU.get_flag_pow, CPU.set_flag_testBit c i j hj v, CPU.get_flag_pow]

/-- `set_flag` only touches the status byte. -/
theorem CPU.set_flag_acc (c : CPU) (f : Nat) (v : Bool) :
    (c.set_flag f v).acc = c.acc := by
  unfold CPU.set_flag; cases v <;> simp

/-- `update_zero_and_negative_flags` only touches the status byte. -/
theorem CPU.update_zero_and_negative_flags_acc (c : CPU) (value : Nat) :
    (c.update_zero_and_negative_flags value).acc = c.acc := by
  unfold CPU.update_zero_and_negative_flags
  rw [CPU.set_flag_acc, CPU.set_flag_acc]

/-- Setting a flag bit then reading the same bit returns the written value. -/
theorem CPU.get_flag_set_flag_same (c : CPU) (i : Nat) (hi : i < 8) (v : Bool) :
    (c.set_flag (2 ^ i) v).get_flag (2 ^ i) = v := by
  rw [CPU.get_flag_set_flag c i i hi v]; simp

/-- Setting one flag bit leaves a different flag bit unchanged. -/
theorem CPU.get_flag_set_flag_of_ne (c : CPU) (i j : Nat) (hj : j < 8)
    (h : i ≠ j) (v : Bool) :
    (c.set_flag (2 ^ i) v).get_flag (2 ^ j) = c.get_flag (2 ^ j) := by
  rw [CPU.get_flag_set_flag c i j hj v]; simp [h]

/-- A concrete state for exercising ADC: the spec scenario
`LDA #$50; ADC #$50` with carry clear (status as after reset). -/
def adc_example_cpu : CPU :=
  { acc := 0x50, status := 0x24, index_x := 0, index_y := 0, sp := 0xFD,
    pc := 0x0600, memory := fun a => if a = 0x0600 then 0x50 else 0 }

/-- Claim C4: for operand byte `b` read by the addressing mode and carry-in
`c_in` taken from the C flag, ADC stores `(A + b + c_in) mod 256` in the
accumulator, sets C iff the 9-bit sum exceeds 255, sets V iff
`((A_old ^ result) & (b ^ result) & 0x80) ≠ 0`, and sets Z and N from the
result byte. -/
theorem spec_c4_adc (c : CPU) (mode : AddressingMode) (b : Nat)
    (ha : c.acc < 256) (hb : b < 256)
    (hread : c.mem_read (c.get_operand_address mode) = b) :
    (c.adc mode).acc =
        (c.acc + b + (if c.get_flag StatusFlags.CARRY then 1 else 0)) % 256
    ∧ ((c.adc mode).get_flag StatusFlags.CARRY = true ↔
        255 < c.acc + b + (if c.get_flag StatusFlags.CARRY then 1 else 0))
    ∧ ((c.adc mode).get_flag StatusFlags.OVERFLOW = true ↔
        (c.acc ^^^ (c.adc mode).acc) &&& (b ^^^ (c.adc mode).acc) &&& 0x80 ≠ 0)
    ∧ ((c.adc mode).get_flag StatusFlags.ZERO = true ↔ (c.adc mode).acc = 0)
    ∧ ((c.adc mode).get_flag StatusFlags.NEGATIVE = true ↔
        (c.adc mode).acc &&& 0x80 ≠ 0) := by
  have hacc : (c.adc mode).acc =
      (c.acc + b + (if c.get_flag StatusFlags.CARRY then 1 else 0)) % 256 := by
    simp only [CPU.adc, hread]
    rw [CPU.update_zero_and_negative_flags_acc]
  refine ⟨hacc, ?_, ?_, ?_, ?_⟩ <;>
    simp only [CPU.adc, hread, CPU.update_zero_and_negative_flags,
      show StatusFlags.CARRY = 2 ^ 0 from rfl,
      show StatusFlags.ZERO = 2 ^ 1 from rfl,
      show StatusFlags.OVERFLOW = 2 ^ 6 from rfl,
      show StatusFlags.NEGATIVE = 2 ^ 7 from rfl] <;>
    rw [CPU.get_flag_pow]
  · rw [CPU.set_flag_testBit _ 7 0 (by norm_num),
      CPU.set_flag_testBit _ 1 0 (by norm_num)]
    dsimp only
    rw [CPU.set_flag_testBit _ 6 0 (by norm_num),
      CPU.set_flag_testBit _ 0 0 (by norm_num)]
    simp
  · rw [CPU.set_flag_testBit _ 7 6 (by norm_num),
      CPU.set_flag_testBit _ 1 6 (by norm_num)]
    dsimp only
    rw [CPU.set_flag_testBit _ 6 6 (by norm_num)]
    simp [CPU.set_flag_acc]
  · rw [CPU.set_flag_testBit _ 7 1 (by norm_num),
      CPU.set_flag_testBit _ 1 1 (by norm_num)]
    simp [CPU.set_flag_acc]
  · rw [CPU.set_flag_testBit _ 7 7 (by norm_num)]
    simp [CPU.set_flag_acc]

/-- Witness for C4: the spec scenario `A = 0x50, ADC #$50` with C clear
produces `A = 0xA0` (the claim's hypotheses hold at a concrete input). -/
theorem spec_c4_adc_witness :
    (0x50 : Nat) < 256 ∧ (adc_example_cpu.adc AddressingMode.Immediate).acc = 0xA0 :=
  ⟨by norm_num,
    ((spec_c4_adc adc_example_cpu AddressingMode.Immediate 0x50 (by decide)
      (by decide) rfl).1).trans (by decide)⟩

/-- The inversion used by SBC, on each byte. -/
theorem inverted_value_eq_xor_fin :
    ∀ b : Fin 256, ((256 - b.val % 256) % 256 + 255) % 256 = b.val ^^^ 255 := by
  decide

/-- `(value as i8).wrapping_neg().wrapping_sub(1) as u8` is the one's
complement `value XOR 0xFF` for every byte. -/
theorem inverted_value_eq_xor (b : Nat) (hb : b < 256) :
    ((256 - b % 256) % 256 + 255) % 256 = b ^^^ 0xFF :=
  inverted_value_eq_xor_fin ⟨b, hb⟩

/-- The status byte after `set_flag`, without unfolding the structure update. -/
theorem CPU.set_flag_status (c : CPU) (f : Nat) (v : Bool) :
    (c.set_flag f v).status =
      if v then c.status ||| f else c.status &&& (f ^^^ 0xFF) := by
  unfold CPU.set_flag; cases v <;> simp

/-- ADC's accumulator and status depend only on the incoming accumulator,
status, and the operand byte the addressing mode resolves to. -/
theorem CPU.adc_acc_status (x y : CPU) (mx my : AddressingMode)
    (hacc : x.acc = y.acc) (hst : x.status = y.status)
    (hval : x.mem_read (x.get_operand_address mx) =
      y.mem_read (y.get_operand_address my)) :
    (x.adc mx).acc = (y.adc my).acc ∧ (x.adc mx).status = (y.adc my).status := by
  constructor <;>
    simp only [CPU.adc, CPU.update_zero_and_negative_flags, CPU.set_flag_status,
      CPU.set_flag_acc, CPU.get_flag, hval, hacc, hst]

/-- A concrete state for exercising SBC: `A = 0x50, SBC #$10` with C set. -/
def sbc_example_cpu : CPU :=
  { acc := 0x50, status := 0x25, index_x := 1, index_y := 2, sp := 0xFD,
    pc := 0x10, memory := fun a => if a = 0x10 then 0x10 else 0 }

/-- The matching ADC state for the SBC example: same accumulator and status,
with the one's complement operand `0x10 XOR 0xFF = 0xEF` in immediate
position. -/
def sbc_example_adc_cpu : CPU :=
  { acc := 0x50, status := 0x25, index_x := 0, index_y := 0, sp := 0,
    pc := 0, memory := fun a => if a = 0 then 0xEF else 0 }

/-- Claim C5: SBC on operand byte `b` produces exactly the accumulator and
status that ADC produces on the operand `b XOR 0xFF` with the same incoming
accumulator and status (hence the same carry-in), and perturbs none of the
CPU's memory, PC, X, Y, or SP. -/
theorem spec_c5_sbc (c c2 : CPU) (mode mode2 : AddressingMode) (b : Nat)
    (hb : b < 256)
    (hread : c.mem_read (c.get_operand_address mode) = b)
    (hacc : c2.acc = c.acc) (hst : c2.status = c.status)
    (hread2 : c2.mem_read (c2.get_operand_address mode2) = b ^^^ 0xFF) :
    (c.sbc mode).acc = (c2.adc mode2).acc
    ∧ (c.sbc mode).status = (c2.adc mode2).status
    ∧ (c.sbc mode).memory = c.memory
    ∧ (c.sbc mode).pc = c.pc
    ∧ (c.sbc mode).index_x = c.index_x
    ∧ (c.sbc mode).index_y = c.index_y
    ∧ (c.sbc mode).sp = c.sp := by
  simp only [CPU.sbc, hread]
  refine ⟨(CPU.adc_acc_status _ c2 AddressingMode.Immediate mode2 ?_ ?_ ?_).1,
    (CPU.adc_acc_status _ c2 AddressingMode.Immediate mode2 ?_ ?_ ?_).2,
    trivial, trivial, trivial, trivial, trivial⟩
  · simp [CPU.mem_write, hacc]
  · simp [CPU.mem_write, hst]
  · rw [hread2]; exact inverted_value_eq_xor b hb
  · simp [CPU.mem_write, hacc]
  · simp [CPU.mem_write, hst]
  · rw [hread2]; exact inverted_value_eq_xor b hb

/-- Witness for C5: `A = 0x50, SBC #$10` with C set produces the same
accumulator as ADC on `0xEF = 0x10 XOR 0xFF` from the matching state. -/
theorem spec_c5_sbc_witness :
    (0x10 : Nat) < 256 ∧
    (sbc_example_cpu.sbc AddressingMode.Immediate).acc =
      (sbc_example_adc_cpu.adc AddressingMode.Immediate).acc :=
  ⟨by norm_num,
    (spec_c5_sbc sbc_example_cpu sbc_example_adc_cpu AddressingMode.Immediate
      AddressingMode.Immediate 0x10 (by norm_num) rfl rfl rfl (by decide)).1⟩

/-- A concrete state for exercising CMP: `A = 5`, immediate operand `5`. -/
def cmp_example_cpu : CPU :=
  { acc := 5, status := 0x24, index_x := 0, index_y := 0, sp := 0xFD,
    pc := 0, memory := fun _ => 5 }

/-- Claim C1 (evaluation at the failing input): comparing equal values —
`reg = M = 5` — leaves the carry flag CLEAR, because `CPU::compare` tests the
strict `reg > M` instead of the documented `reg ≥ M`; the claim (and the 6502
ISA) require C set here since `5 ≥ 5`.  Z is set as required. -/
theorem spec_c1_compare_failing :
    (cmp_example_cpu.compare AddressingMode.Immediate 5).get_flag
        StatusFlags.CARRY = false
    ∧ (cmp_example_cpu.compare AddressingMode.Immediate 5).get_flag
        StatusFlags.ZERO = true
    ∧ (5 : Nat) ≥ 5 := by
  refine ⟨by decide, by decide, by norm_num⟩

/-- Claim C3 (evaluation at the failing input): the standalone CPU's backing
array has length 0xFFFF = 65535, so the 16-bit address 0xFFFF is OUT of
bounds: both the read and the write at 0xFFFF panic rather than access a
byte, contradicting full 64 KiB coverage. -/
theorem spec_c3_memory_oob :
    CPU_new_memory.length = 0xFFFF
    ∧ CPU_array_mem_read CPU_new_memory 0xFFFF = none
    ∧ CPU_array_mem_write CPU_new_memory 0xFFFF 0 = none := by
  have hlen : CPU_new_memory.length = 0xFFFF := by
    unfold CPU_new_memory
    rw [List.length_replicate]
    rfl
  refine ⟨hlen, ?_, ?_⟩
  · unfold CPU_array_mem_read
    rw [List.getElem?_eq_none]
    rw [hlen]
  · unfold CPU_array_mem_write
    rw [if_neg]
    rw [hlen]
    omega

/-- Claim C9: every Bus store into 0x8000–0xFFFF panics
(`"Attempting to write to ROM"`): no successor state exists, so neither RAM
nor PRG-ROM is modified by the attempt. -/
theorem spec_c9_rom_write_rejected (b : Bus) (value addr : Nat)
    (h1 : 0x8000 ≤ addr) (h2 : addr ≤ 0xFFFF) :
    b.mem_write addr value = none := by
  unfold Bus.mem_write
  rw [if_neg (by omega), if_neg (by omega), if_pos ⟨h1, h2⟩]

/-- A 16 KiB cartridge and a Bus over it, for concrete witnesses. -/
def bus_example : Bus :=
  { cpu_vram := fun _ => 0, rom := { prg_rom := List.replicate 0x4000 0 } }

/-- Witness for C9: the store `write(0x9000, 7)` is rejected. -/
theorem spec_c9_rom_write_rejected_witness :
    ((0x8000 : Nat) ≤ 0x9000 ∧ (0x9000 : Nat) ≤ 0xFFFF)
    ∧ bus_example.mem_write 0x9000 7 = none :=
  ⟨⟨by norm_num, by norm_num⟩,
    spec_c9_rom_write_rejected bus_example 7 0x9000 (by norm_num) (by norm_num)⟩

/-- Masking with `0x7FF` is reduction mod 2 KiB. -/
theorem land_2047_eq_mod (x : Nat) : x &&& 2047 = x % 2048 := by
  have h := Nat.and_pow_two_sub_one_eq_mod x 11
  norm_num at h
  exact h

/-- Claim C6: RAM mirroring on the Bus.  For every base address in the 2 KiB
window and every mirror index `k ≤ 3`, a write at the base is visible at the
mirror and a write at the mirror is visible at the base. -/
theorem spec_c6_ram_mirror (b : Bus) (addr v k : Nat)
    (haddr : addr ≤ 0x7FF) (hk : k ≤ 3) :
    ((b.mem_write addr v).bind
      (fun b2 => b2.mem_read (addr + k * 0x800))) = some v
    ∧ ((b.mem_write (addr + k * 0x800) v).bind
      (fun b2 => b2.mem_read addr)) = some v := by
  have h1 : addr ≤ 0x1FFF := by omega
  have h2 : addr + k * 0x800 ≤ 0x1FFF := by
    have : k * 0x800 ≤ 3 * 0x800 := Nat.mul_le_mul_right 0x800 hk
    omega
  have hm1 : addr &&& 2047 = addr := by rw [land_2047_eq_mod]; omega
  have hm2 : (addr + k * 0x800) &&& 2047 = addr := by
    rw [land_2047_eq_mod, Nat.add_mul_mod_self_right]
    omega
  constructor
  · simp only [Bus.mem_write, Bus.mem_read]
    rw [if_pos h1]
    simp only [Option.some_bind]
    rw [if_pos h2, hm1, hm2]
    simp
  · simp only [Bus.mem_write, Bus.mem_read]
    rw [if_pos h2]
    simp only [Option.some_bind]
    rw [if_pos h1, hm1, hm2]
    simp

/-- Witness for C6: write 0xAB at 0x0123, read it back at the third mirror. -/
theorem spec_c6_ram_mirror_witness :
    ((0x123 : Nat) ≤ 0x7FF ∧ (2 : Nat) ≤ 3)
    ∧ ((bus_example.mem_write 0x123 0xAB).bind
        (fun b2 => b2.mem_read (0x123 + 2 * 0x800))) = some 0xAB :=
  ⟨⟨by norm_num, by norm_num⟩,
    (spec_c6_ram_mirror bus_example 0x123 0xAB 2 (by norm_num) (by norm_num)).1⟩

/-- Claim C7: PRG-ROM reads through the Bus.  For a PRG image of 16 KiB or
32 KiB, a read at `addr ∈ [0x8000, 0xFFFF]` returns
`PRG[(addr - 0x8000) mod len(PRG)]`, and for the 16 KiB case the two 16 KiB
halves of the window alias: `read(0x8000 + i) = read(0xC000 + i)`. -/
theorem spec_c7_prg_mirror (b : Bus)
    (hlen : b.rom.prg_rom.length = 0x4000 ∨ b.rom.prg_rom.length = 0x8000) :
    (∀ addr, 0x8000 ≤ addr → addr ≤ 0xFFFF →
      b.mem_read addr = b.rom.prg_rom[(addr - 0x8000) % b.rom.prg_rom.length]?)
    ∧ (b.rom.prg_rom.length = 0x4000 →
      ∀ i, i ≤ 0x3FFF → b.mem_read (0x8000 + i) = b.mem_read (0xC000 + i)) := by
  have hgen : ∀ addr, 0x8000 ≤ addr → addr ≤ 0xFFFF →
      b.mem_read addr =
        b.rom.prg_rom[(addr - 0x8000) % b.rom.prg_rom.length]? := by
    intro addr ha1 ha2
    simp only [Bus.mem_read]
    rw [if_neg (by omega), if_neg (by omega), if_pos ⟨ha1, ha2⟩]
    simp only [Bus.read_rpg_rom]
    rcases hlen with h16 | h32
    · rw [h16]
      by_cases hmir : addr - 0x8000 ≥ 0x4000
      · rw [if_pos ⟨rfl, hmir⟩]
      · rw [if_neg (by tauto)]
        rw [Nat.mod_eq_of_lt (by omega)]
    · rw [h32]
      rw [if_neg (by omega)]
      rw [Nat.mod_eq_of_lt (by omega)]
  refine ⟨hgen, fun h16 i hi => ?_⟩
  rw [hgen (0x8000 + i) (by omega) (by omega),
    hgen (0xC000 + i) (by omega) (by omega), h16]
  have : (0x8000 + i - 0x8000) % 0x4000 = (0xC000 + i - 0x8000) % 0x4000 := by
    have e1 : 0x8000 + i - 0x8000 = i := by omega
    have e2 : 0xC000 + i - 0x8000 = i + 0x4000 := by omega
    rw [e1, e2, Nat.add_mod_right]
  rw [this]

/-- Witness for C7: on a 16 KiB cartridge, the mirrored read at 0xC123
returns the PRG byte at offset 0x0123. -/
theorem spec_c7_prg_mirror_witness :
    (bus_example.rom.prg_rom.length = 0x4000 ∨
      bus_example.rom.prg_rom.length = 0x8000)
    ∧ bus_example.mem_read 0xC123 =
        bus_example.rom.prg_rom[(0xC123 - 0x8000) %
          bus_example.rom.prg_rom.length]? := by
  have hlen : bus_example.rom.prg_rom.length = 0x4000 := by
    show (List.replicate 0x4000 (0 : Nat)).length = 0x4000
    rw [List.length_replicate]
  exact ⟨Or.inl hlen,
    (spec_c7_prg_mirror bus_example (Or.inl hlen)).1 0xC123 (by norm_num)
      (by norm_num)⟩

/-- The spec's JMP-indirect scenario: `JMP ($30FF)` at 0x0600 with
`0x30FF = 0x80`, `0x3000 = 0x50`, `0x3100 = 0x40`. -/
def jmp_example_cpu : CPU :=
  { acc := 0, status := 0x24, index_x := 0, index_y := 0, sp := 0xFD,
    pc := 0x0600,
    memory := fun a =>
      if a = 0x0600 then 0x6C else if a = 0x0601 then 0xFF
      else if a = 0x0602 then 0x30 else if a = 0x30FF then 0x80
      else if a = 0x3000 then 0x50 else if a = 0x3100 then 0x40 else 0 }

/-- The same scenario seen from inside the dispatch (PC already past the
0x6C opcode byte, pointing at the 16-bit operand). -/
def jmp_operand_cpu : CPU :=
  { jmp_example_cpu with pc := 0x0601 }

/-- Claim C8: JMP indirect.  When the fetched 16-bit operand has low byte
0xFF, the target's high byte is read from `operand & 0xFF00` (start of the
operand's page), not `operand + 1`; otherwise the target is a normal
little-endian fetch at the operand.  On the spec's concrete scenario, the
full step of `JMP ($30FF)` sets PC to 0x5080, not 0x4080. -/
theorem spec_c8_jmp_indirect (c : CPU) (operand : Nat)
    (hop : c.mem_read_u16 c.pc = operand) :
    (operand &&& 0xFF = 0xFF →
      c.jmp_indirect_target =
        ((c.mem_read (operand &&& 0xFF00)) <<< 8) ||| c.mem_read operand)
    ∧ (operand &&& 0xFF ≠ 0xFF →
      c.jmp_indirect_target = c.mem_read_u16 operand)
    ∧ StepResult.pc_of jmp_example_cpu.step = some 0x5080
    ∧ (0x5080 : Nat) ≠ 0x4080 := by
  refine ⟨fun h => ?_, fun h => ?_, by decide, by norm_num⟩
  · simp only [CPU.jmp_indirect_target, hop]
    rw [if_pos h]
  · simp only [CPU.jmp_indirect_target, hop]
    rw [if_neg h]

/-- Witness for C8: on the concrete scenario the operand is 0x30FF (low byte
0xFF) and the buggy fetch produces 0x5080. -/
theorem spec_c8_jmp_indirect_witness :
    jmp_operand_cpu.mem_read_u16 jmp_operand_cpu.pc = 0x30FF
    ∧ jmp_operand_cpu.jmp_indirect_target = 0x5080 :=
  ⟨by decide,
    ((spec_c8_jmp_indirect jmp_operand_cpu 0x30FF (by decide)).1
      (by decide)).trans (by decide)⟩

/-- Claim C10: in `run_with_callback` the trace callback runs exactly once
after each completed instruction and never for the BRK (halt) step or a
faulted step: for every fuel bound, start state and callback, the number of
callback invocations recorded by the run equals the number of completed
instructions. -/
theorem spec_c10_callback_count (fuel : Nat) (c : CPU) (cb : CPU → CPU) :
    (c.run_with_callback fuel cb).2.1.length = c.completed_instructions fuel cb := by
  induction fuel generalizing c with
  | zero => rfl
  | succ n ih =>
      simp only [CPU.run_with_callback, CPU.completed_instructions]
      cases hs : c.step with
      | halted c1 => simp
      | fault => simp
      | next c1 => simp [ih, Nat.add_comm]

/-- The combined effect, on the PC, of the branch handler followed by the
run loop's "did PC move" length adjustment, seen from the state `c2` whose PC
points at the offset byte (`p` is the address of the branch opcode).  A taken
branch with offset 0xFF (−1) jumps exactly onto the offset byte's address, so
the adjustment fires a second time and the step ends at `p + 2` instead of
the branch target `p + 1`. -/
theorem branch_core (c2 : CPU) (cond : Bool) (p : Nat)
    (hp : c2.pc = (p + 1) % 65536)
    (hoff : c2.memory c2.pc < 256) :
    StepResult.pc_of
      (if c2.pc = (c2.branch cond).pc then
        StepResult.next
          { c2.branch cond with pc := ((c2.branch cond).pc + (2 - 1)) % 65536 }
      else StepResult.next (c2.branch cond))
    = some (if cond then
        (if c2.memory c2.pc = 0xFF then (p + 2) % 65536
         else (p + 2 + sign_extend (c2.memory c2.pc)) % 65536)
      else (p + 2) % 65536) := by
  have hpclt : c2.pc < 65536 := by rw [hp]; exact Nat.mod_lt _ (by norm_num)
  cases cond with
  | false =>
      simp only [CPU.branch, Bool.false_eq_true, if_false, if_pos,
        StepResult.pc_of, Option.some.injEq]
      rw [hp]
      omega
  | true =>
      simp only [CPU.branch, CPU.mem_read, if_true]
      by_cases hj : c2.memory c2.pc = 255
      · have hs : sign_extend (c2.memory c2.pc) = 65535 := by
          rw [hj]
          decide
        have hcond : c2.pc =
            ({ c2 with pc := (c2.pc + 1 + sign_extend (c2.memory c2.pc)) % 65536 } :
              CPU).pc := by
          show c2.pc = (c2.pc + 1 + sign_extend (c2.memory c2.pc)) % 65536
          rw [hs]
          omega
        rw [if_pos hcond]
        simp only [StepResult.pc_of, Option.some.injEq]
        rw [if_pos hj, hs, hp]
        omega
      · have hcond : ¬ (c2.pc =
            ({ c2 with pc := (c2.pc + 1 + sign_extend (c2.memory c2.pc)) % 65536 } :
              CPU).pc) := by
          show ¬ (c2.pc = (c2.pc + 1 + sign_extend (c2.memory c2.pc)) % 65536)
          unfold sign_extend
          split <;> omega
        rw [if_neg hcond]
        simp only [StepResult.pc_of, Option.some.injEq]
        rw [if_neg hj, hp]
        unfold sign_extend
        split <;> omega

/-- BEQ at 0x0600 with Z set and offset byte 0xFF (−1): the claim predicts the
step ends with PC = 0x0601 (the offset byte's own address); the code ends at
0x0602 because the branch lands on the pre-adjustment PC and the length
adjustment fires anyway. -/
def beq_example_cpu : CPU :=
  { acc := 0, status := 0x26, index_x := 0, index_y := 0, sp := 0xFD,
    pc := 0x0600,
    memory := fun a =>
      if a = 0x0600 then 0xF0 else if a = 0x0601 then 0xFF else 0 }

/-- Counterexample to claim C2 as stated: for the taken BEQ with offset 0xFF,
the claim's predicted PC is `0x0601 + 1 + signed(−1) = 0x0601`, but the step
actually ends at 0x0602. -/
theorem spec_c2_branch_counterexample :
    StepResult.pc_of beq_example_cpu.step ≠
      some ((0x0601 + 1 + sign_extend 0xFF) % 65536)
    ∧ StepResult.pc_of beq_example_cpu.step = some 0x0602 := by
  refine ⟨by decide, by decide⟩

/-- Claim C2 as amended: for every branch opcode, when the condition fails
the step ends at PC + 2 (opcode byte plus operand byte, i.e. the claim's
"PC + 1" from the offset byte); when the condition holds and the offset is
not 0xFF, the step ends at the branch target PC + 2 + signed_offset (the
claim's "PC + 1 + signed_offset"); but when the condition holds and the
offset is 0xFF, the branch target coincides with the pre-adjustment PC, the
length adjustment fires anyway, and the step ends at PC + 2 instead of the
target PC + 1. -/
theorem spec_c2_branch_amended (c : CPU) (b : Nat) (hb : b ∈ branch_opcodes)
    (hop : c.memory c.pc = b)
    (hoffb : c.memory ((c.pc + 1) % 65536) < 256) :
    StepResult.pc_of c.step =
      some (if branch_condition c b then
        (if c.memory ((c.pc + 1) % 65536) = 0xFF then (c.pc + 2) % 65536
         else (c.pc + 2 + sign_extend (c.memory ((c.pc + 1) % 65536))) % 65536)
      else (c.pc + 2) % 65536) := by
  fin_cases hb
  · simp only [CPU.step, CPU.mem_read, hop]
    rw [show CPU_INSTRUCTIONS_MAP 0x90 =
      some (Instruction.mk 0x90 "BCC" 2 AddressingMode.NonAddressing 2) from rfl]
    exact branch_core { c with pc := (c.pc + 1) % 65536 } _ c.pc rfl hoffb
  · simp only [CPU.step, CPU.mem_read, hop]
    rw [show CPU_INSTRUCTIONS_MAP 0xB0 =
      some (Instruction.mk 0xB0 "BCS" 2 AddressingMode.NonAddressing 2) from rfl]
    exact branch_core { c with pc := (c.pc + 1) % 65536 } _ c.pc rfl hoffb
  · simp only [CPU.step, CPU.mem_read, hop]
    rw [show CPU_INSTRUCTIONS_MAP 0xF0 =
      some (Instruction.mk 0xF0 "BEQ" 2 AddressingMode.NonAddressing 2) from rfl]
    exact branch_core { c with pc := (c.pc + 1) % 65536 } _ c.pc rfl hoffb
  · simp only [CPU.step, CPU.mem_read, hop]
    rw [show CPU_INSTRUCTIONS_MAP 0xD0 =
      some (Instruction.mk 0xD0 "BNE" 2 AddressingMode.NonAddressing 2) from rfl]
    exact branch_core { c with pc := (c.pc + 1) % 65536 } _ c.pc rfl hoffb
  · simp only [CPU.step, CPU.mem_read, hop]
    rw [show CPU_INSTRUCTIONS_MAP 0x30 =
      some (Instruction.mk 0x30 "BMI" 2 AddressingMode.NonAddressing 2) from rfl]
    exact branch_core { c with pc := (c.pc + 1) % 65536 } _ c.pc rfl hoffb
  · simp only [CPU.step, CPU.mem_read, hop]
    rw [show CPU_INSTRUCTIONS_MAP 0x10 =
      some (Instruction.mk 0x10 "BPL" 2 AddressingMode.NonAddressing 2) from rfl]
    exact branch_core { c with pc := (c.pc + 1) % 65536 } _ c.pc rfl hoffb
  · simp only [CPU.step, CPU.mem_read, hop]
    rw [show CPU_INSTRUCTIONS_MAP 0x50 =
      some (Instruction.mk 0x50 "BVC" 2 AddressingMode.NonAddressing 2) from rfl]
    exact branch_core { c with pc := (c.pc + 1) % 65536 } _ c.pc rfl hoffb
  · simp only [CPU.step, CPU.mem_read, hop]
    rw [show CPU_INSTRUCTIONS_MAP 0x70 =
      some (Instruction.mk 0x70 "BVS" 2 AddressingMode.NonAddressing 2) from rfl]
    exact branch_core { c with pc := (c.pc + 1) % 65536 } _ c.pc rfl hoffb

/-- A taken BCS with offset 0x10 at 0x0600 (C set). -/
def bcs_example_cpu : CPU :=
  { acc := 0, status := 0x25, index_x := 0, index_y := 0, sp := 0xFD,
    pc := 0x0600,
    memory := fun a =>
      if a = 0x0600 then 0xB0 else if a = 0x0601 then 0x10 else 0 }

/-- Witness for the amended C2: the taken BCS with offset 0x10 ends at
`0x0600 + 2 + 0x10 = 0x0612`. -/
theorem spec_c2_branch_amended_witness :
    (0xB0 : Nat) ∈ branch_opcodes
    ∧ StepResult.pc_of bcs_example_cpu.step = some 0x0612 :=
  ⟨by decide,
    (spec_c2_branch_amended bcs_example_cpu 0xB0 (by decide) rfl
      (by decide)).trans (by decide)⟩
